import Mathlib

/-!
Verification of the cycle-accurate datapath in matrix.py (OpenTPU matrix
multiply unit).  Every component is a synchronous circuit built with PyRTL;
we embed each one as a pure step function from (register state, inputs) to
next register state, with combinational outputs as separate functions of the
current state and inputs.  Machine integers are modelled as Nat with an
explicit mod 2^w wherever a register or slice truncates.

PyRTL semantics used throughout:
- registers reset to 0;
- inside a conditional_assignment block, consecutive with-branches form a
  priority (first match wins) chain; a with following an otherwise starts a
  new independent chain; registers hold their value when no branch assigns,
  plain wires default to 0;
- an assignment to reg.next using the unconditional operator inside a
  conditional block ignores the surrounding condition (it is a plain
  connection, only the conditional operator consults the predicate stack).
-/

namespace OpenTPU

def DATWIDTH : Nat := 8
def MATSIZE : Nat := 4

/-! ## MAC (one processing element), matrix.py lines 9-78 -/

/-- Registers of one MAC cell: the two weight buffers, the active-buffer
selector, and the six pipeline registers. -/
structure MACState where
  wbuf1 : Nat
  wbuf2 : Nat
  current_buffer_reg : Bool
  data_reg : Nat
  switch_reg : Bool
  acc_reg : Nat
  weight_reg : Nat
  weight_we_reg : Bool
  weight_tag_reg : Nat
deriving Repr, DecidableEq

/-- Per-cycle inputs of one MAC cell. -/
structure MACIn where
  data_in : Nat
  acc_in : Nat
  switchw : Bool
  weight_in : Nat
  weight_we : Bool
  weight_tag : Nat
deriving Repr, DecidableEq

/-- current_buffer wire: selector register xor this cycle's switch request
(matrix.py line 46). -/
def current_buffer (s : MACState) (i : MACIn) : Bool :=
  Bool.xor s.current_buffer_reg i.switchw

/-- The active weight feeding the multiplier: select(current_buffer, wbuf2,
wbuf1) (matrix.py line 57). -/
def mac_weight (s : MACState) (i : MACIn) : Nat :=
  if current_buffer s i then s.wbuf2 else s.wbuf1

/-- Combinational multiply-accumulate output: product = weight * data_in,
out = product + acc_in, sliced to 32 bits when wider (matrix.py lines 59-62).
For an acc_in below 2^32 the slice is exactly mod 2^32. -/
def mac_out (s : MACState) (i : MACIn) : Nat :=
  (mac_weight s i * i.data_in + i.acc_in) % 2^32

/-- The buffer-write condition: weight_we together with weight_tag equal to
MATSIZE-1 (matrix.py line 50). -/
def mac_capture (i : MACIn) : Bool :=
  i.weight_we && (i.weight_tag == MATSIZE - 1)

/-- One clock tick of a MAC cell (matrix.py lines 38-78).  The buffer write
under mac_capture targets wbuf2 when current_buffer is 0 and wbuf1 otherwise
(lines 49-54); all pipeline registers load this cycle's inputs, the tag
incremented and truncated to its 8-bit width (line 76). -/
def macStep (s : MACState) (i : MACIn) : MACState :=
  { wbuf1 := if mac_capture i then
               (if current_buffer s i then i.weight_in % 2^DATWIDTH else s.wbuf1)
             else s.wbuf1
    wbuf2 := if mac_capture i then
               (if current_buffer s i then s.wbuf2 else i.weight_in % 2^DATWIDTH)
             else s.wbuf2
    current_buffer_reg := if i.switchw then !s.current_buffer_reg else s.current_buffer_reg
    data_reg := i.data_in % 2^DATWIDTH
    switch_reg := i.switchw
    acc_reg := mac_out s i
    weight_reg := i.weight_in % 2^DATWIDTH
    weight_we_reg := i.weight_we
    weight_tag_reg := (i.weight_tag + 1) % 2^DATWIDTH }

/-- The weight buffer that is inactive according to the stored selector
register alone (ignoring this cycle's switch request). -/
def inactive_weight (s : MACState) : Nat :=
  if s.current_buffer_reg then s.wbuf1 else s.wbuf2

/-- The MAC constructor's width guard (matrix.py lines 30-33), with Python
chained-comparison semantics: it raises exactly when
(len weight_in differs from len data_in AND len data_in differs from
data_width) or (len switchw differs from len weight_we AND len weight_we
differs from 1).  Arguments are the wire lengths. -/
def mac_width_error (data_width wlen dlen swlen welen : Nat) : Bool :=
  ((wlen != dlen) && (dlen != data_width)) || ((swlen != welen) && (welen != 1))

/-! ## MMArray (4 x 4 grid of MACs plus programming sequencer),
matrix.py lines 81-149 -/

/-- Registers of the array: one MACState per (row, column) cell, plus the
programming flag and the 2-bit progstep counter of the weight-programming
sequencer (lines 113-128; for MATSIZE = 4 the while loop gives a 2-bit
progstep register).  Indices outside the 4 x 4 range are never read. -/
structure MMState where
  grid : Nat → Nat → MACState
  programming : Bool
  progstep : Nat

/-- Per-cycle inputs of the array: one activation byte and one switch bit
per row, the 128-bit tile wire from the FIFO, and the weight write-enable
pulse. -/
structure MMIn where
  data_in : Nat → Nat
  new_weights : Nat → Bool
  weights_in : Nat
  weights_we : Bool

/-- Byte (row, col) of the 128-bit tile wire: weight_arr row slicing
followed by the 8-bit column slice (matrix.py lines 131-136, with
rowsize = DATWIDTH * MATSIZE = 32). -/
def weightByte (t row col : Nat) : Nat :=
  t / 2^(row * (DATWIDTH * MATSIZE) + col * DATWIDTH) % 2^DATWIDTH

/-- The inputs seen by cell (r, c) during one cycle, from matrix.py lines
91-110 and 138-147: column 0 takes the fresh row inputs, row 0 takes a
constant-zero partial sum, the muxed tile row (selected by progstep), the
programming flag as write enable and progstep as tag; every other cell
reads its left or upper neighbour's pipeline registers. -/
def cellIn (S : MMState) (I : MMIn) (r c : Nat) : MACIn :=
  { data_in := if c = 0 then I.data_in r else (S.grid r (c-1)).data_reg
    acc_in := if r = 0 then 0 else (S.grid (r-1) c).acc_reg
    switchw := if c = 0 then I.new_weights r else (S.grid r (c-1)).switch_reg
    weight_in := if r = 0 then weightByte I.weights_in S.progstep c else (S.grid (r-1) c).weight_reg
    weight_we := if r = 0 then S.programming else (S.grid (r-1) c).weight_we_reg
    weight_tag := if r = 0 then S.progstep else (S.grid (r-1) c).weight_tag_reg }

/-- One clock tick of the whole array.  Every cell steps with its wired
inputs; the sequencer chains of lines 118-128 are two priority chains:
programming is set on a weights_we pulse while idle and cleared when
progstep reaches MATSIZE-1; progstep increments (mod 4) while programming
and is 0 otherwise. -/
def mmStep (S : MMState) (I : MMIn) : MMState :=
  { grid := fun r c => macStep (S.grid r c) (cellIn S I r c)
    programming :=
      if I.weights_we && !S.programming then true
      else if S.programming && (S.progstep == MATSIZE - 1) then false
      else S.programming
    progstep := if S.programming then (S.progstep + 1) % 4 else 0 }

/-- The array's column outputs: the bottom row's accumulate registers
(matrix.py lines 97, 110, 149). -/
def mmOut (S : MMState) (c : Nat) : Nat := (S.grid (MATSIZE - 1) c).acc_reg

/-- A MAC cell with every register reset to zero. -/
def macReset : MACState :=
  { wbuf1 := 0, wbuf2 := 0, current_buffer_reg := false, data_reg := 0,
    switch_reg := false, acc_reg := 0, weight_reg := 0,
    weight_we_reg := false, weight_tag_reg := 0 }

/-- Array state at the start of a programming pass: all cells reset, the
programming flag just set, progstep 0 (the cycle after a weights_we pulse
arrives at the reset array). -/
def progStart : MMState :=
  { grid := fun _ _ => macReset, programming := true, progstep := 0 }

/-- Inputs held during a programming pass of tile t: idle data, no switch
requests, no further write-enable pulse. -/
def progIn (t : Nat) : MMIn :=
  { data_in := fun _ => 0, new_weights := fun _ => false,
    weights_in := t, weights_we := false }

/-- The array state k cycles into a programming pass of tile t. -/
def progRun (t : Nat) : Nat → MMState
  | 0 => progStart
  | n + 1 => mmStep (progRun t n) (progIn t)

/-! ### Projection lemmas, used to evaluate the grid one register at a time -/

theorem weightByte_lt (t r c : Nat) : weightByte t r c < 256 :=
  Nat.mod_lt _ (by norm_num [DATWIDTH])

@[simp] theorem weightByte_mod (t r c : Nat) : weightByte t r c % 256 = weightByte t r c :=
  Nat.mod_mod_of_dvd _ dvd_rfl

@[simp] theorem macStep_wbuf1 (s i) : (macStep s i).wbuf1 =
    (if mac_capture i then
      (if current_buffer s i then i.weight_in % 2^DATWIDTH else s.wbuf1) else s.wbuf1) := rfl

@[simp] theorem macStep_wbuf2 (s i) : (macStep s i).wbuf2 =
    (if mac_capture i then
      (if current_buffer s i then s.wbuf2 else i.weight_in % 2^DATWIDTH) else s.wbuf2) := rfl

@[simp] theorem macStep_cbuf (s i) : (macStep s i).current_buffer_reg =
    (if i.switchw then !s.current_buffer_reg else s.current_buffer_reg) := rfl

@[simp] theorem macStep_data_reg (s i) : (macStep s i).data_reg = i.data_in % 2^DATWIDTH := rfl

@[simp] theorem macStep_switch_reg (s i) : (macStep s i).switch_reg = i.switchw := rfl

@[simp] theorem macStep_weight_reg (s i) : (macStep s i).weight_reg = i.weight_in % 2^DATWIDTH := rfl

@[simp] theorem macStep_weight_we_reg (s i) : (macStep s i).weight_we_reg = i.weight_we := rfl

@[simp] theorem macStep_weight_tag_reg (s i) : (macStep s i).weight_tag_reg =
    (i.weight_tag + 1) % 2^DATWIDTH := rfl

@[simp] theorem mmStep_grid (S I r c) : (mmStep S I).grid r c =
    macStep (S.grid r c) (cellIn S I r c) := rfl

@[simp] theorem mmStep_programming (S I) : (mmStep S I).programming =
    (if I.weights_we && !S.programming then true
     else if S.programming && (S.progstep == MATSIZE - 1) then false
     else S.programming) := rfl

@[simp] theorem mmStep_progstep (S I) : (mmStep S I).progstep =
    (if S.programming then (S.progstep + 1) % 4 else 0) := rfl

@[simp] theorem cellIn_switchw (S I r c) : (cellIn S I r c).switchw =
    (if c = 0 then I.new_weights r else (S.grid r (c-1)).switch_reg) := rfl

@[simp] theorem cellIn_weight_in (S I r c) : (cellIn S I r c).weight_in =
    (if r = 0 then weightByte I.weights_in S.progstep c else (S.grid (r-1) c).weight_reg) := rfl

@[simp] theorem cellIn_weight_we (S I r c) : (cellIn S I r c).weight_we =
    (if r = 0 then S.programming else (S.grid (r-1) c).weight_we_reg) := rfl

@[simp] theorem cellIn_weight_tag (S I r c) : (cellIn S I r c).weight_tag =
    (if r = 0 then S.progstep else (S.grid (r-1) c).weight_tag_reg) := rfl

@[simp] theorem progStart_grid (r c) : progStart.grid r c = macReset := rfl

@[simp] theorem progStart_programming : progStart.programming = true := rfl

@[simp] theorem progStart_progstep : progStart.progstep = 0 := rfl

@[simp] theorem progIn_new_weights (t r) : (progIn t).new_weights r = false := rfl

@[simp] theorem progIn_weights_we (t) : (progIn t).weights_we = false := rfl

@[simp] theorem progIn_weights_in (t) : (progIn t).weights_in = t := rfl

@[simp] theorem macReset_fields :
    macReset.wbuf1 = 0 ∧ macReset.wbuf2 = 0 ∧ macReset.current_buffer_reg = false ∧
    macReset.switch_reg = false ∧ macReset.weight_reg = 0 ∧
    macReset.weight_we_reg = false ∧ macReset.weight_tag_reg = 0 := by
  refine ⟨rfl, rfl, rfl, rfl, rfl, rfl, rfl⟩

/-! ### Claim C3 -/

/-- Claim C3: during a programming pass of tile t (one row per cycle for
MATSIZE cycles, write-enable across the top row, tag equal to the step
counter), the value entered at step s reaches row r at cycle s + r carrying
tag s + r with write-enable still set, and after exactly MATSIZE cycles the
inactive weight buffer of every PE (r, c) holds the tile byte destined for
it under the capture rule row = MATSIZE - 1 - step. -/
theorem tile_programming_distributes_weights (t : Nat) :
    (∀ s r c : Fin MATSIZE,
       (cellIn (progRun t (s.val + r.val)) (progIn t) r.val c.val).weight_in
           = weightByte t s.val c.val ∧
       (cellIn (progRun t (s.val + r.val)) (progIn t) r.val c.val).weight_tag
           = s.val + r.val ∧
       (cellIn (progRun t (s.val + r.val)) (progIn t) r.val c.val).weight_we = true) ∧
    (∀ r c : Fin MATSIZE,
       inactive_weight ((progRun t MATSIZE).grid r.val c.val)
           = weightByte t (MATSIZE - 1 - r.val) c.val) := by
  constructor
  · intro s r c
    fin_cases s <;> fin_cases r <;> fin_cases c <;>
      simp [progRun, mac_capture, current_buffer, inactive_weight, MATSIZE, DATWIDTH]
  · intro r c
    fin_cases r <;> fin_cases c <;>
      simp [progRun, mac_capture, current_buffer, inactive_weight, MATSIZE, DATWIDTH]

/-! ### Claim C5 -/

/-- Concrete PE state for the C5 counterexample: all registers reset, so the
stored selector is 0 and the buffer inactive according to the stored
selector is wbuf2. -/
def c5_state : MACState := macReset

/-- Concrete PE input for the C5 counterexample: a switch request in the same
cycle as a qualifying weight write (tag = MATSIZE - 1). -/
def c5_input : MACIn :=
  { data_in := 0, acc_in := 0, switchw := true, weight_in := 7,
    weight_we := true, weight_tag := 3 }

/-- Claim C5 counterexample: with stored selector 0 and a simultaneous switch
request, the incoming byte is NOT written to the buffer that is inactive
according to the stored selector (wbuf2); it lands in wbuf1, selected by the
switched value. -/
theorem mac_write_stored_selector_counterexample :
    c5_state.current_buffer_reg = false ∧
    inactive_weight c5_state = c5_state.wbuf2 ∧
    (macStep c5_state c5_input).wbuf2 ≠ 7 ∧
    (macStep c5_state c5_input).wbuf1 = 7 := by decide

/-- Claim C5 (amended): on a cycle with weight-write-enable set and tag equal
to MATSIZE-1, the incoming byte is written into the buffer that is inactive
according to the EFFECTIVE selector (stored selector xor this cycle's switch
request); the other buffer, and both buffers on any other cycle, are
unchanged.  When no switch is requested the effective selector coincides
with the stored one. -/
theorem mac_write_effective_selector (s : MACState) (i : MACIn) :
    ((macStep s i).wbuf1 =
       if mac_capture i && current_buffer s i then i.weight_in % 2^DATWIDTH else s.wbuf1) ∧
    ((macStep s i).wbuf2 =
       if mac_capture i && !(current_buffer s i) then i.weight_in % 2^DATWIDTH else s.wbuf2) ∧
    current_buffer s { i with switchw := false } = s.current_buffer_reg := by
  refine ⟨?_, ?_, ?_⟩
  · cases hc : mac_capture i <;> cases hb : current_buffer s i <;> simp [hc, hb]
  · cases hc : mac_capture i <;> cases hb : current_buffer s i <;> simp [hc, hb]
  · simp [current_buffer]

/-! ### Claim C8 -/

/-- Claim C8: for an active weight w and activation byte a (both 8-bit) and a
32-bit incoming partial sum A, the MAC output is (w * a + A) mod 2^32, the
8 x 8 product fits in 16 bits, and the registered column output is the same
wrapped sum (no saturation, no flag). -/
theorem mac_multiply_accumulate_wraps (s : MACState) (i : MACIn)
    (h1 : s.wbuf1 < 2^DATWIDTH) (h2 : s.wbuf2 < 2^DATWIDTH)
    (ha : i.data_in < 2^DATWIDTH) (hA : i.acc_in < 2^32) :
    mac_out s i = (mac_weight s i * i.data_in + i.acc_in) % 2^32 ∧
    mac_weight s i * i.data_in < 2^16 ∧
    (macStep s i).acc_reg = (mac_weight s i * i.data_in + i.acc_in) % 2^32 := by
  have hw : mac_weight s i < 2^DATWIDTH := by
    unfold mac_weight; split <;> assumption
  have hw' : mac_weight s i < 256 := by simpa [DATWIDTH] using hw
  have ha' : i.data_in < 256 := by simpa [DATWIDTH] using ha
  refine ⟨rfl, ?_, rfl⟩
  have h255 : mac_weight s i * i.data_in ≤ 255 * 255 :=
    Nat.mul_le_mul (by omega) (by omega)
  exact lt_of_le_of_lt h255 (by norm_num)

/-- Concrete PE state for the C8 witness: active weight 255. -/
def c8_state : MACState := { macReset with wbuf1 := 255 }

/-- Concrete PE input for the C8 witness: activation 255 and the largest
32-bit partial sum, so the sum overflows 32 bits and must wrap. -/
def c8_input : MACIn :=
  { data_in := 255, acc_in := 2^32 - 1, switchw := false, weight_in := 0,
    weight_we := false, weight_tag := 0 }

/-- Claim C8 witness: at weight 255, activation 255, partial sum 2^32 - 1,
the output is 65024 = (255 * 255 + 2^32 - 1) mod 2^32, a silent wrap. -/
theorem mac_multiply_accumulate_wraps_witness :
    mac_out c8_state c8_input = 65024 ∧
    mac_weight c8_state c8_input * c8_input.data_in < 2^16 := by
  have h := mac_multiply_accumulate_wraps c8_state c8_input
    (by decide) (by decide) (by decide) (by decide)
  exact ⟨h.1.trans (by decide), h.2.1⟩

/-! ### Claim C9 -/

/-- Claim C9 (refuted): a MAC instantiated with data_width 8 but 16-bit
activation and weight operands and 2-bit control signals passes the
constructor's guard silently (the Python chained comparison raises only when
the first two lengths also differ from each other), while a configuration
with pairwise different lengths does raise.  So a width mismatch can go
undetected into run time. -/
theorem mac_width_check_misses_mismatch :
    mac_width_error 8 16 16 2 2 = false ∧ 16 ≠ 8 ∧ 2 ≠ 1 ∧
    mac_width_error 8 16 4 1 1 = true := by decide

/-! ## systolic_setup (vector skew buffer), matrix.py lines 271-356

The diagonal data buffers, the switch chain and the four control chains.
Chains are lists of register values ordered from the input side: element 0
is the register written directly from the chain's source, element 3 is the
register feeding the first accumulator.  Note line 323: doneout starts from
the raw lastvec INPUT, not from donereg, so the done chain is one register
shorter than the address / write-enable / clear chains (which start from
addrreg / wereg / clearreg). -/

/-- Registers of systolic_setup. -/
structure SSState where
  addrreg : Nat
  wereg : Bool
  clearreg : Bool
  donereg : Bool
  firstcolumn : List Nat
  triangle : List (List Nat)
  switchChain : List Bool
  addrChain : List Nat
  weChain : List Bool
  clearChain : List Bool
  doneChain : List Bool
deriving Repr, DecidableEq

/-- Per-cycle inputs of systolic_setup: the 32-bit vector wire and the
per-vector metadata. -/
structure SSIn where
  vec_in : Nat
  waddr : Nat
  valid : Bool
  clearbit : Bool
  lastvec : Bool
  switch : Bool
deriving Repr, DecidableEq

/-- Byte r of the input vector wire (line 351). -/
def vecByte (v r : Nat) : Nat := v / 2^(r * DATWIDTH) % 2^DATWIDTH

/-- One clock tick of systolic_setup (matrix.py lines 297-354).
firstcolumn r loads vector byte r; triangle row r (r = 1..3, stored at
index r-1) is the row's chain of r extra buffers; the switch chain loads
the switch input; the address / write-enable / clear chains load the
first-stage registers addrreg / wereg / clearreg, while the done chain
loads the raw lastvec input (line 323); donereg is written every cycle but
never read. -/
def ssStep (S : SSState) (I : SSIn) : SSState :=
  { addrreg := I.waddr
    wereg := I.valid
    clearreg := I.clearbit
    donereg := I.lastvec
    firstcolumn := (List.range MATSIZE).map (fun r => vecByte I.vec_in r)
    triangle := (List.range (MATSIZE - 1)).map
      (fun k => (S.firstcolumn.getD (k+1) 0) :: ((S.triangle.getD k []).take k))
    switchChain := I.switch :: S.switchChain.take (MATSIZE - 1)
    addrChain := S.addrreg :: S.addrChain.take (MATSIZE - 1)
    weChain := S.wereg :: S.weChain.take (MATSIZE - 1)
    clearChain := S.clearreg :: S.clearChain.take (MATSIZE - 1)
    doneChain := I.lastvec :: S.doneChain.take (MATSIZE - 1) }

/-- Output next_row r: the last buffer of row r of the diagonal bank
(lastcolumn, lines 308-348). -/
def ssRow (S : SSState) (r : Nat) : Nat :=
  if r = 0 then S.firstcolumn.getD 0 0 else (S.triangle.getD (r-1) []).getD (r-1) 0

/-- Output switchout r for array row r. -/
def ssSwitchOut (S : SSState) (r : Nat) : Bool := S.switchChain.getD r false

/-- Accumulator-bound outputs: the tail registers of the four control
chains. -/
def ssAddrOut (S : SSState) : Nat := S.addrChain.getD (MATSIZE - 1) 0

def ssWeOut (S : SSState) : Bool := S.weChain.getD (MATSIZE - 1) false

def ssClearOut (S : SSState) : Bool := S.clearChain.getD (MATSIZE - 1) false

def ssDoneOut (S : SSState) : Bool := S.doneChain.getD (MATSIZE - 1) false

/-- Reset state of systolic_setup: every register zero. -/
def ssInit : SSState :=
  { addrreg := 0, wereg := false, clearreg := false, donereg := false
    firstcolumn := List.replicate MATSIZE 0
    triangle := [[0], [0, 0], [0, 0, 0]]
    switchChain := List.replicate MATSIZE false
    addrChain := List.replicate MATSIZE 0
    weChain := List.replicate MATSIZE false
    clearChain := List.replicate MATSIZE false
    doneChain := List.replicate MATSIZE false }

/-- C2 scenario input, cycle 0: a vector accepted with valid = 1,
overwrite = 1, lastvec = 1, destination address 9. -/
def c2_input0 : SSIn :=
  { vec_in := 0, waddr := 9, valid := true, clearbit := true,
    lastvec := true, switch := false }

/-- C2 scenario input, all later cycles: idle. -/
def c2_idle : SSIn :=
  { vec_in := 0, waddr := 0, valid := false, clearbit := false,
    lastvec := false, switch := false }

/-- The systolic_setup state k cycles into the C2 scenario. -/
def c2_run : Nat → SSState
  | 0 => ssInit
  | n + 1 => ssStep (c2_run n) (if n = 0 then c2_input0 else c2_idle)

/-! ### Claim C2 -/

/-- Claim C2 (refuted by the code): for the vector accepted at cycle 0 with
valid = lastvec = overwrite = 1 and address 9, the last-vector flag leaves
the skew buffer at cycle MATSIZE = 4, one cycle BEFORE the write-enable,
address and overwrite signals (cycle 5): the done chain starts from the raw
lastvec input while the other three control chains start from their
first-stage registers, so the last-vector flag does not traverse a chain of
matching depth and reaches the first accumulator one cycle early. -/
theorem lastvec_chain_shorter_than_control_chain :
    ssDoneOut (c2_run 4) = true ∧ ssWeOut (c2_run 4) = false ∧
    ssAddrOut (c2_run 4) = 0 ∧
    ssDoneOut (c2_run 5) = false ∧ ssWeOut (c2_run 5) = true ∧
    ssAddrOut (c2_run 5) = 9 ∧ ssClearOut (c2_run 5) = true := by decide

/-! ## FIFO (weight prefetch queue), matrix.py lines 204-269

For matsize = 4 and a 512-bit memory port: totalsize = 16 bytes, tile =
128 bits, ddrwidth = 64 bytes, so totalsize/ddrwidth = 0 in integer
division, the burst counter is a 1-bit register, and the staging area is a
single 512-bit register (max(1, 0) = 1).  The staging register's write
(line 236) uses the unconditional next-assignment operator inside the
conditional block, so it loads mem_data on EVERY cycle regardless of
mem_valid and of the decoder condition.  The three shift branches of lines
253-265 form one priority chain: at most one of the three transfers happens
per cycle, the staging-to-buf2 transfer first. -/

/-- Registers of the FIFO: the 1-bit burst counter (named state in the
source), the single 512-bit staging register, the full flag, three
128-bit tile stages and their empty flags. -/
structure FIFOState where
  cnt : Nat
  topbuf : Nat
  full : Bool
  buf2 : Nat
  buf3 : Nat
  buf4 : Nat
  empty2 : Bool
  empty3 : Bool
  empty4 : Bool
deriving Repr, DecidableEq

/-- Per-cycle inputs of the FIFO. -/
structure FIFOIn where
  mem_data : Nat
  mem_valid : Bool
  next_tile : Bool
deriving Repr, DecidableEq

/-- cleartop wire: high exactly when the first shift branch (staging full
and buf2 empty) fires (lines 240, 254-257). -/
def fifoCleartop (S : FIFOState) : Bool := S.full && S.empty2

/-- Condition of the first shift branch: staging registers move to buf2. -/
def fifoMove1 (S : FIFOState) : Bool := S.full && S.empty2

/-- Condition of the second shift branch (only reached when the first does
not fire): buf2 moves to buf3. -/
def fifoMove2 (S : FIFOState) : Bool := !fifoMove1 S && (S.empty3 && !S.empty2)

/-- Condition of the third shift branch (only reached when the first two do
not fire): buf3 moves to buf4. -/
def fifoMove3 (S : FIFOState) : Bool :=
  !fifoMove1 S && !(S.empty3 && !S.empty2) && (S.empty4 && !S.empty3)

/-- One clock tick of the FIFO.  The counter increments mod 2 on a valid
pulse; the staging register loads mem_data unconditionally (line 236, see
the section comment); the full flag is set on a valid pulse arriving while
the counter equals 1 (= len(topbuf)) and cleared by cleartop (lines
241-245); the shift chain moves at most one tile (lines 253-265). -/
def fifoStep (S : FIFOState) (I : FIFOIn) : FIFOState :=
  { cnt := if I.mem_valid then (S.cnt + 1) % 2 else S.cnt
    topbuf := I.mem_data % 2^512
    full := if I.mem_valid && (S.cnt == 1) then true
            else if fifoCleartop S then false
            else S.full
    buf2 := if fifoMove1 S then S.topbuf % 2^128 else S.buf2
    buf3 := if fifoMove2 S then S.buf2 % 2^128 else S.buf3
    buf4 := if fifoMove3 S then S.buf3 % 2^128 else S.buf4
    empty2 := if fifoMove1 S then false else if fifoMove2 S then true else S.empty2
    empty3 := if fifoMove2 S then false else if fifoMove3 S then true else S.empty3
    empty4 := if fifoMove3 S then false else S.empty4 }

/-- FIFO tile output: the final stage (line 269). -/
def fifoTile (S : FIFOState) : Nat := S.buf4

/-- FIFO ready output: final stage occupied and no advance requested this
cycle (line 267). -/
def fifoReady (S : FIFOState) (next_tile : Bool) : Bool := !S.empty4 && !next_tile

/-- Reset state of the FIFO: every register zero. -/
def fifoInit : FIFOState :=
  { cnt := 0, topbuf := 0, full := false, buf2 := 0, buf3 := 0, buf4 := 0,
    empty2 := false, empty3 := false, empty4 := false }

/-! ### Claim C10 -/

/-- Claim C10: immediately after reset, before any memory burst, the
stage-empty flags are 0 (occupied), so with next_tile low the ready output
is already asserted while the exposed head tile is the all-zero value that
was never loaded. -/
theorem fifo_reset_ready_with_zero_tile :
    fifoInit.empty2 = false ∧ fifoInit.empty3 = false ∧ fifoInit.empty4 = false ∧
    fifoReady fifoInit false = true ∧ fifoTile fifoInit = 0 := by decide

/-! ### Claim C7 -/

/-- C7 scenario: at reset, one valid burst carrying the whole 16-byte tile
(value 5), then idle cycles. -/
def c7_run : Nat → FIFOState
  | 0 => fifoInit
  | n + 1 => fifoStep (c7_run n)
      (if n = 0 then { mem_data := 5, mem_valid := true, next_tile := false }
       else { mem_data := 0, mem_valid := false, next_tile := false })

set_option maxRecDepth 8192 in
/-- Claim C7 (refuted by the code): after the single burst that makes up a
whole tile, the burst counter has reached the staging-register count (1)
and the burst was captured, but the full flag is NOT raised then, nor on
any later burst-free cycle; moreover the staging register does not hold the
burst: it is overwritten by the (zero) mem_data wire on the very next cycle,
because the staging write is unconditional. -/
theorem fifo_full_not_raised_when_tile_complete :
    (c7_run 1).cnt = 1 ∧ (c7_run 1).topbuf = 5 ∧
    (c7_run 1).full = false ∧ (c7_run 2).full = false ∧ (c7_run 3).full = false ∧
    (c7_run 2).topbuf = 0 := by decide

/-! ### Claim C6 -/

/-- C6 counterexample state: the staging area is full with buf2 empty (so
the first branch fires), while at the same time the final stage is empty
and buf3 is occupied (holding 42). -/
def c6_state : FIFOState :=
  { cnt := 0, topbuf := 11, full := true, buf2 := 0, buf3 := 42, buf4 := 0,
    empty2 := true, empty3 := false, empty4 := true }

/-- C6 idle input. -/
def c6_input : FIFOIn := { mem_data := 0, mem_valid := false, next_tile := false }

/-- Claim C6 counterexample: in c6_state the final stage is empty and the
stage before it is not, yet the tile does NOT shift forward this cycle; the
cascade claim fails because the branches form a first-match priority chain
and the staging-to-buf2 branch wins. -/
theorem fifo_tail_shift_blocked_counterexample :
    c6_state.empty4 = true ∧ c6_state.empty3 = false ∧
    ¬ ((fifoStep c6_state c6_input).buf4 = c6_state.buf3 ∧
       (fifoStep c6_state c6_input).empty4 = false) := by decide

/-- Claim C6 (amended): the three shift checks form a head-of-code-first
priority chain (staging to stage 2, else stage 2 to stage 3, else stage 3
to the head), so at most one stage advances per cycle; in particular the
head stage receives the tile before it exactly when the head is empty, the
stage before it is occupied, and neither earlier branch fires. -/
theorem fifo_shift_priority_chain (S : FIFOState) (I : FIFOIn)
    (h1 : (S.full && S.empty2) = false) (h2 : S.empty3 = false)
    (h3 : S.empty4 = true) (h4 : S.buf3 < 2^128) :
    (fifoStep S I).buf4 = S.buf3 ∧ (fifoStep S I).empty4 = false ∧
    (fifoStep S I).empty3 = true := by
  obtain ⟨c, t, f, b2, b3, b4, e2, e3, e4⟩ := S
  simp only at h1 h2 h3 h4
  subst h2; subst h3
  cases f <;> cases e2 <;>
    simp_all [fifoStep, fifoMove1, fifoMove2, fifoMove3]

/-- C6 witness state: only the third branch applies. -/
def c6_wstate : FIFOState :=
  { cnt := 0, topbuf := 0, full := false, buf2 := 0, buf3 := 99, buf4 := 0,
    empty2 := false, empty3 := false, empty4 := true }

/-- Claim C6 witness: head-stage shift at a concrete state where no earlier
branch fires. -/
theorem fifo_shift_priority_chain_witness :
    (fifoStep c6_wstate c6_input).buf4 = c6_wstate.buf3 ∧
    (fifoStep c6_wstate c6_input).empty4 = false ∧
    (fifoStep c6_wstate c6_input).empty3 = true :=
  fifo_shift_priority_chain c6_wstate c6_input (by decide) (by decide)
    (by decide) (by decide)

/-! ## MMU tile controller, matrix.py lines 359-407

For matrix_size = 4 the doubling loops give a 4-bit weights_wait register
and a 2-bit weights_count register, and totalwait = 5.  Lines 386-405 hold
two priority chains inside one conditional_assignment: the first drives
weights_wait, the second drives weights_count while also raising the
done_programming and weights_we wires (wires default to 0 in the branches
that do not assign them, so weights_we is raised exactly in the final
otherwise branch and done_programming exactly in the middle branch).  The
run-time check of line 374 aborts on a cycle where switch_weights is high
while weights_wait differs from 0. -/

/-- Totalwait constant of the controller (line 384). -/
def TOTALWAIT : Nat := MATSIZE + 1

/-- Registers of the tile controller. -/
structure CtrlState where
  weights_wait : Nat
  weights_count : Nat
  startup : Bool
deriving Repr, DecidableEq

/-- Per-cycle inputs of the controller: the external switch request and the
FIFO's ready output. -/
structure CtrlIn where
  switch_weights : Bool
  tile_ready : Bool
deriving Repr, DecidableEq

/-- The rtl_assert of line 374 fires (Protocol Violation abort) exactly when
switch_weights is high while weights_wait differs from 0. -/
def switchViolation (switch_weights : Bool) (S : CtrlState) : Bool :=
  switch_weights && (S.weights_wait != 0)

/-- weights_we wire: raised only in the final otherwise branch of the count
chain (lines 398-405), i.e. whenever neither the start condition
(weights_wait at totalwait with the FIFO ready) nor the termination
comparison (weights_count equal to MATSIZE) holds. -/
def ctrlWe (S : CtrlState) (I : CtrlIn) : Bool :=
  if (S.weights_wait == TOTALWAIT) && I.tile_ready then false
  else if S.weights_count == MATSIZE then false
  else true

/-- done_programming wire: raised only in the middle branch, when the start
condition does not hold and weights_count equals MATSIZE (lines 400-402). -/
def ctrlDone (S : CtrlState) (I : CtrlIn) : Bool :=
  if (S.weights_wait == TOTALWAIT) && I.tile_ready then false
  else if S.weights_count == MATSIZE then true
  else false

/-- One clock tick of the controller.  The wait chain (priority order): the
first cycle forces totalwait; a switch request loads 1; a wait below
totalwait increments (4-bit register); a non-zero count zeroes it; else it
holds.  The count chain: the start condition loads 1; a count equal to
MATSIZE resets to 0; otherwise the count increments in its 2-bit register.
startup is 0 only on the first cycle (line 370). -/
def ctrlStep (S : CtrlState) (I : CtrlIn) : CtrlState :=
  { weights_wait :=
      if S.startup = false then TOTALWAIT
      else if I.switch_weights then 1
      else if S.weights_wait != TOTALWAIT then (S.weights_wait + 1) % 16
      else if S.weights_count != 0 then 0
      else S.weights_wait
    weights_count :=
      if (S.weights_wait == TOTALWAIT) && I.tile_ready then 1
      else if S.weights_count == MATSIZE then 0
      else (S.weights_count + 1) % 4
    startup := true }

/-- Reset state of the controller. -/
def ctrlInit : CtrlState := { weights_wait := 0, weights_count := 0, startup := false }

/-- Controller inputs on the reset cycle: no switch request; the FIFO
asserts ready out of reset (its head-stage empty flag resets to occupied
and done_programming is low). -/
def c1_input : CtrlIn := { switch_weights := false, tile_ready := true }

/-- The controller state one cycle after reset: startup has forced
weights_wait to its maximum totalwait = MATSIZE + 1. -/
def ctrlCycle1 : CtrlState := ctrlStep ctrlInit c1_input

/-! ### Claim C1 -/

/-- Claim C1 (refuted by the code): one cycle after reset the wait counter
sits at its maximum MATSIZE + 1, yet a switch request on that cycle fires
the Protocol Violation abort; and on the reset cycle itself the counter is
0, below the maximum, yet a switch request passes without violation.  The
run-time check tests weights_wait differing from 0, not from the
maximum. -/
theorem switch_assert_fires_at_max_wait :
    ctrlCycle1.weights_wait = MATSIZE + 1 ∧
    switchViolation true ctrlCycle1 = true ∧
    ctrlInit.weights_wait < MATSIZE + 1 ∧
    switchViolation true ctrlInit = false := by decide

/-! ### Claim C4 -/

/-- Claim C4 (refuted by the code): on the reset cycle the wait counter is
not at its maximum and no programming pass has begun (count 0), yet the
weight-write-enable wire is already asserted (the final otherwise branch
raises it whenever the start and termination conditions are both false);
and done_programming can never be asserted, because the termination
comparison needs weights_count = MATSIZE = 4 while the 2-bit count register
always steps to a value below 4. -/
theorem weights_we_asserted_outside_programming :
    (ctrlWe ctrlInit c1_input = true ∧ ctrlInit.weights_count = 0 ∧
     ctrlInit.weights_wait ≠ TOTALWAIT) ∧
    (∀ (S : CtrlState) (I : CtrlIn), S.weights_count < MATSIZE → ctrlDone S I = false) ∧
    (∀ (S : CtrlState) (I : CtrlIn), (ctrlStep S I).weights_count < MATSIZE) := by
  refine ⟨by decide, ?_, ?_⟩
  · intro S I h
    unfold ctrlDone
    split
    · rfl
    · split
      · rename_i hc
        have : S.weights_count = MATSIZE := by simpa using hc
        omega
      · rfl
  · intro S I
    unfold ctrlStep
    simp only
    split
    · decide
    · split
      · decide
      · exact Nat.lt_of_lt_of_le (Nat.mod_lt _ (by norm_num)) (by norm_num [MATSIZE])

/-- Claim C4 witness: done_programming low at the concrete reset state. -/
theorem weights_we_asserted_outside_programming_witness :
    ctrlDone ctrlInit c1_input = false :=
  weights_we_asserted_outside_programming.2.1 ctrlInit c1_input (by decide)

end OpenTPU
